import Mathlib

/-!
Verification of the iacgenius configuration store, provider registry,
prompt builder and generation session against their natural-language
specification.  The Python sources (`config_handler.py`, `llm_integration.py`,
`llm_providers.py`, `infrastructure.py`, `generator.py`, `cli.py`) are
shallowly embedded: every function below is a direct translation of the
correspondingly named Python function; external effects (the configuration
file, the platform keyring, process environment, network backends) are
passed explicitly as values or oracle functions.
-/

/- ## Python string semantics helpers -/

/-- Python truthiness of an optional string: `None` and `""` are falsy. -/
def pyTruthy : Option String → Bool
  | none => false
  | some s => !s.data.isEmpty

/-- Python `a or b` on optional strings: yields `a` when `a` is truthy, else `b`. -/
def pyOr (a b : Option String) : Option String :=
  if pyTruthy a then a else b

/-- ASCII upper-casing of one character, as Python `str.upper` acts on ASCII. -/
def upperChar (c : Char) : Char :=
  if 'a' ≤ c ∧ c ≤ 'z' then Char.ofNat (c.toNat - 32) else c

/-- Python `str.upper` restricted to ASCII (all provider names are ASCII). -/
def upperStr (s : String) : String := ⟨s.data.map upperChar⟩

/-- Whitespace test used by Python `str.strip`. -/
def isWs (c : Char) : Bool := c = ' ' || c = '\t' || c = '\n' || c = '\r'

/-- Python `str.strip`: removes leading and trailing whitespace. -/
def pyStrip (s : String) : String :=
  ⟨((s.data.dropWhile isWs).reverse.dropWhile isWs).reverse⟩

/-- Python `str.split` on a single newline character. -/
def splitLines (s : String) : List String :=
  (s.data.splitOn '\n').map (fun l => ⟨l⟩)

/-- Python `", ".join(...)`. -/
def joinComma (l : List String) : String := String.intercalate ", " l

/-- A single-quote character, used in several error messages. -/
def sqc : String := "\x27"

/- ## Secret Codec -/

/-- Modelled from the spec: the Secret Codec (section 4.1) is the external
`cryptography.fernet.Fernet` library, not part of `src/`.  A wrapped secret
is a token tagged with the symmetric key; the tag is the key's decimal
representation followed by a colon. -/
def wrapTag (k : Nat) : List Char := (Nat.repr k).data ++ [':']

/-- Modelled from the spec: `wrap(plaintext) -> ciphertext` under key `k`
(`Fernet(key).encrypt`). -/
def wrap (k : Nat) (s : String) : String := ⟨wrapTag k ++ s.data⟩

/-- Modelled from the spec: `unwrap(ciphertext) -> plaintext` under key `k`
(`Fernet(key).decrypt`); it inverts `wrap` and fails (`none`, the model of the
decryption exception) on any string that is not a token produced under `k` —
in particular on plaintext and on tokens of a different key. -/
def unwrap (k : Nat) (c : String) : Option String :=
  if c.data.take (wrapTag k).length = wrapTag k then
    some ⟨c.data.drop (wrapTag k).length⟩
  else none

/- ## Configuration store data model -/

/-- The `defaults` table of the persisted TOML document.  Each field is
present (`some`) or absent; TOML cannot store `None`, so a `None` written by
Python is modelled as the field being absent. -/
structure StoredDefaults where
  provider : Option String := none
  model : Option String := none
  apiKey : Option String := none
deriving DecidableEq, Repr

/-- The plaintext structure of the configuration file before file-level
encryption: `{defaults, presets}`. -/
structure StoredConfig where
  defaults : Option StoredDefaults := none
  presets : List (String × String) := []
deriving DecidableEq, Repr

/-- The state of the configuration file on disk: absent, unreadable (or not
decodable at all), or a Fernet blob encrypted under `encKey` whose plaintext
parses to `payload`. -/
inductive ConfigFile where
  | missing
  | unreadable
  | blob (encKey : Nat) (payload : StoredConfig)
deriving DecidableEq, Repr

/-- The platform secure credential store holding the symmetric key:
unreachable (any access raises), holding a key, or empty (the next generated
key would be `fresh`). -/
inductive KeyringState where
  | unreachable
  | hasKey (k : Nat)
  | empty (fresh : Nat)
deriving DecidableEq, Repr

/-- `get_fernet` (config_handler.py lines 15-20): reads the named keyring
entry, generating and storing a fresh key when absent; `none` models the
exception raised when the keyring is unreachable.  Generation is idempotent
inside one process, so the pure reading is faithful for every call site. -/
def getFernetKey : KeyringState → Option Nat
  | .unreachable => none
  | .hasKey k => some k
  | .empty fresh => some fresh

/-- The external world one configuration operation sees: the file, the
keyring, and the process environment (an association list of variables). -/
structure World where
  file : ConfigFile
  keyring : KeyringState
  env : List (String × String)
deriving DecidableEq, Repr

/-- `os.environ.get`. -/
def envGet (w : World) (name : String) : Option String := w.env.lookup name

/-- The in-memory `defaults` dictionary after `read_config`: `provider` and
`model` are always present (the hard-coded base dictionary supplies them);
the API key is plaintext or absent. -/
structure Defaults where
  provider : String
  model : String
  apiKey : Option String
deriving DecidableEq, Repr

/-- The in-memory configuration returned by `read_config`. -/
structure Config where
  defaults : Defaults
  presets : List (String × String)
deriving DecidableEq, Repr

/-- The hard-coded base defaults of `read_config` (config_handler.py lines
24-31). -/
def baseDefaults : Defaults :=
  { provider := "deepseek", model := "deepseek-chat", apiKey := none }

/-- The body of the `try` block of `read_config` (config_handler.py lines
34-54): read the file bytes, obtain the Fernet key, decrypt the file, parse
the TOML, merge the stored `defaults` (decrypting the `api_key` field and
treating its decryption failure as absence) and the stored `presets`.
`.error` models the exceptions that the surrounding `except` swallows:
unreadable file, unreachable keyring, file-level decryption failure. -/
def readStoredTry (w : World) : Except String (Defaults × List (String × String)) :=
  match w.file with
  | .missing => .ok (baseDefaults, [])
  | .unreadable => .error "file read failed"
  | .blob fkey payload =>
    match getFernetKey w.keyring with
    | none => .error "keyring unreachable"
    | some k =>
      if fkey = k then
        let d : Defaults :=
          match payload.defaults with
          | none => baseDefaults
          | some sd =>
            { provider := sd.provider.getD baseDefaults.provider
              model := sd.model.getD baseDefaults.model
              apiKey :=
                match sd.apiKey with
                | none => baseDefaults.apiKey
                | some s => if pyTruthy (some s) then unwrap k s else some s }
        .ok (d, payload.presets)
      else .error "file decryption failed"

/-- The environment-variable section of `read_config` (config_handler.py
lines 63-88): `IACGENIUS_PROVIDER` over stored provider, `IACGENIUS_MODEL`
over stored model, and for the key the provider-specific `{PROVIDER}_API_KEY`
over the generic `IACGENIUS_API_KEY` over the stored (decrypted) key. -/
def applyEnvDefaults (d0 : Defaults) (env : List (String × String)) : Defaults :=
  let current_provider : String :=
    (pyOr (env.lookup "IACGENIUS_PROVIDER")
      (pyOr (some d0.provider) (some "deepseek"))).getD "deepseek"
  let current_model := pyOr (env.lookup "IACGENIUS_MODEL") (some d0.model)
  let model1 : String :=
    if pyTruthy current_model then current_model.getD d0.model else d0.model
  let providerEnvKeyName := upperStr current_provider ++ "_API_KEY"
  let api_key_from_env :=
    pyOr (env.lookup providerEnvKeyName) (env.lookup "IACGENIUS_API_KEY")
  let apiKey1 : Option String :=
    if pyTruthy api_key_from_env then api_key_from_env else d0.apiKey
  { provider := current_provider, model := model1, apiKey := apiKey1 }

/-- `read_config` (config_handler.py lines 22-88): start from the hard-coded
defaults, merge the stored file if present (all failures in that step are
caught — `except Exception` on line 55 — and degrade to the base defaults,
which is also what a missing file yields), then apply the environment
precedence.  The function is total: the source catches every exception of
the file-reading step and the environment section cannot raise. -/
def read_config (w : World) : Config :=
  let loaded : Defaults × List (String × String) :=
    match readStoredTry w with
    | .ok r => r
    | .error _ => (baseDefaults, [])
  { defaults := applyEnvDefaults loaded.1 w.env, presets := loaded.2 }

/- ## Configuration store write path -/

/-- `write_config` (config_handler.py lines 90-97): obtain the Fernet key,
encrypt the serialized TOML document and write it with owner-only
permissions; any failure is re-raised as a configuration error. -/
def write_config (kr : KeyringState) (cfg : StoredConfig) : Except String ConfigFile :=
  match getFernetKey kr with
  | none => .error "Config write failed: keyring unreachable"
  | some k => .ok (.blob k cfg)

/-- The keyword arguments of `update_defaults` relevant to the claims.
`apiKey = some none` models an explicit falsy `api_key=None` argument;
`apiKey = none` models the argument being absent. -/
structure UpdateKwargs where
  provider : Option String := none
  model : Option String := none
  apiKey : Option (Option String) := none
deriving DecidableEq, Repr

/-- The provider registry `_providers_map` key list (llm_integration.py
lines 6-13), in dictionary order; `get_available_providers` returns it. -/
def available_providers : List String :=
  ["deepseek", "openai", "anthropic", "openrouter", "bedrock", "ollama"]

/-- `update_defaults` (config_handler.py lines 104-165): read the current
configuration (which decrypts the stored key and applies environment
precedence), validate a supplied provider against the registry and a
supplied model against `get_available_models` (whose network behaviour is
the oracle `availModels`; an empty list means no constraint), encrypt a
supplied truthy API key, merge the updates over the current in-memory
defaults, and write the merged document back.  Note the merge re-persists
`current_defaults` verbatim — including the already-decrypted plaintext
API key when no `api_key` argument is given. -/
def update_defaults (w : World) (kw : UpdateKwargs)
    (availModels : String → Except String (List String)) :
    Except String ConfigFile :=
  let config := read_config w
  let cur := config.defaults
  let providerUpdate : Except String (Option String) :=
    match kw.provider with
    | none => .ok none
    | some p =>
      if p ∈ available_providers then .ok (some p)
      else
        .error ("Invalid provider: " ++ sqc ++ p ++ sqc ++ ". Available: "
          ++ joinComma available_providers)
  match providerUpdate with
  | .error e => .error e
  | .ok updProvider =>
    let provider_to_validate : String := kw.provider.getD cur.provider
    let modelUpdate : Except String (Option String) :=
      match kw.model with
      | none => .ok none
      | some m =>
        if !pyTruthy (some provider_to_validate) then
          .error "Cannot validate model without a provider specified or configured."
        else
          match availModels provider_to_validate with
          | .error e => .error e
          | .ok ms =>
            if !ms.isEmpty && m ∉ ms then
              .error ("Invalid model " ++ sqc ++ m ++ sqc ++ " for provider "
                ++ sqc ++ provider_to_validate ++ sqc ++ ". Available: " ++ joinComma ms)
            else .ok (some m)
    match modelUpdate with
    | .error e => .error e
    | .ok updModel =>
      let keyUpdate : Except String (Option (Option String)) :=
        match kw.apiKey with
        | none => .ok none
        | some v =>
          if pyTruthy v then
            match getFernetKey w.keyring with
            | none => .error "keyring unreachable"
            | some k => .ok (some (some (wrap k (v.getD ""))))
          else .ok (some none)
      match keyUpdate with
      | .error e => .error e
      | .ok updKey =>
        let merged : Defaults :=
          { provider := updProvider.getD cur.provider
            model := updModel.getD cur.model
            apiKey := updKey.getD cur.apiKey }
        let cfgw : StoredConfig :=
          { defaults := some ⟨some merged.provider, some merged.model, merged.apiKey⟩
            presets := config.presets }
        write_config w.keyring cfgw

/- ## Provider registry -/

/-- `get_provider` (llm_integration.py lines 15-24): an unknown identifier
raises a configuration error naming it and enumerating the registered
identifiers; otherwise the constructor runs (its external behaviour is the
oracle `construct`) and a construction failure is wrapped into a
configuration error naming the provider. -/
def get_provider (provider_name : String)
    (construct : String → Except String Unit) : Except String Unit :=
  if provider_name ∉ available_providers then
    .error ("Unsupported provider: " ++ provider_name ++ ". Supported: "
      ++ joinComma available_providers)
  else
    match construct provider_name with
    | .ok u => .ok u
    | .error e => .error ("Error initializing " ++ provider_name ++ " provider: " ++ e)

/- ## Model listing -/

/-- Code-point lexicographic comparison of character lists, the order Python
uses to compare strings. -/
def dataLe : List Char → List Char → Bool
  | [], _ => true
  | _ :: _, [] => false
  | a :: as, b :: bs =>
    if a.toNat < b.toNat then true
    else if b.toNat < a.toNat then false
    else dataLe as bs

/-- Python string comparison `a <= b`. -/
def strLe (a b : String) : Bool := dataLe a.data b.data

/-- One insertion step of the stable insertion sort below. -/
def insertSorted (x : String) : List String → List String
  | [] => [x]
  | y :: ys => if strLe x y then x :: y :: ys else y :: insertSorted x ys

/-- Python `sorted` on a list of strings (a stable sort under the code-point
lexicographic order, so it agrees with `sorted` pointwise). -/
def sortStr (l : List String) : List String := l.foldr insertSorted []

/-- `DeepseekProvider.list_models` (llm_providers.py lines 85-99): on a
successful request, the truthy `id` fields of the returned entries; on any
exception, a warning and the empty list. -/
def deepseek_list_models (net : Except String (List (Option String))) : List String :=
  match net with
  | .ok data => data.filterMap (fun i => if pyTruthy i then i else none)
  | .error _ => []

/-- `OpenAIProvider.list_models` (llm_providers.py lines 553-570): the sorted
truthy `id` fields on success, the empty list on any exception. -/
def openai_list_models (net : Except String (List (Option String))) : List String :=
  match net with
  | .ok data => sortStr (data.filterMap (fun i => if pyTruthy i then i else none))
  | .error _ => []

/-- The hard-coded model list of `OpenRouterProvider.list_models`
(llm_providers.py lines 185-189). -/
def openrouterKnownModels : List String :=
  ["openai/gpt-4o", "openai/gpt-3.5-turbo", "google/gemini-pro-1.5",
   "anthropic/claude-3.5-sonnet", "mistralai/mistral-7b-instruct",
   "meta-llama/llama-3-8b-instruct"]

/-- `OpenRouterProvider.list_models` (llm_providers.py lines 174-197): on
success, the known models followed by the sorted set of newly fetched ids;
on any exception, the empty list. -/
def openrouter_list_models (net : Except String (List (Option String))) : List String :=
  match net with
  | .ok data =>
    let fetched := (data.filterMap (fun i => if pyTruthy i then i else none)).dedup
    openrouterKnownModels
      ++ sortStr (fetched.filter (fun m => m ∉ openrouterKnownModels))
  | .error _ => []

/-- `OllamaProvider.list_models` (llm_providers.py lines 453-469): the sorted
truthy `name` fields on success, the empty list on connection failure or any
other exception. -/
def ollama_list_models (net : Except String (List (Option String))) : List String :=
  match net with
  | .ok data => sortStr (data.filterMap (fun i => if pyTruthy i then i else none))
  | .error _ => []

/-- `AnthropicProvider.list_models` (llm_providers.py lines 632-637): a
static list, returned unconditionally. -/
def anthropic_list_models : List String :=
  ["claude-3-5-sonnet-latest", "claude-3-opus-latest", "claude-3-haiku-latest"]

/-- The keys of `AWSBedrockProvider.MODEL_ID_MAP` (llm_providers.py lines
203-211), in dictionary order. -/
def bedrockModelNames : List String :=
  ["claude-3.5-sonnet", "claude-3-opus", "claude-3-haiku",
   "llama3-8b-instruct", "llama3-70b-instruct", "titan-text-express"]

/-- `AWSBedrockProvider.list_models` (llm_providers.py lines 324-368): on a
successful backend call it discards the response and returns the sorted
static key list; on any exception it returns the unsorted static key list —
a non-empty fallback, never the empty list. -/
def bedrock_list_models (net : Except String (List String)) : List String :=
  match net with
  | .ok _ => sortStr bedrockModelNames
  | .error _ => bedrockModelNames

/-- `get_available_models` (llm_integration.py lines 40-63): construct the
provider (a `ConfigError` from construction propagates), call its
`list_models` (whose outcome, already recovered from any exception inside
the provider, is `listModelsOutcome`), and return it, normalising a falsy
result to the empty list. -/
def get_available_models (provider_name : String)
    (construct : String → Except String Unit)
    (listModelsOutcome : List String) : Except String (List String) :=
  match get_provider provider_name construct with
  | .error e => .error e
  | .ok _ => .ok (if listModelsOutcome.isEmpty then [] else listModelsOutcome)

/- ## Prompt Builder -/

/-- The tag-lines expression of `create_prompt_template` (infrastructure.py
line 72): each newline-separated tag is stripped; blank tags are dropped;
the rest are rendered as bullet lines. -/
def tagLines (tags : String) : String :=
  String.intercalate "\n" ((splitLines tags).filterMap (fun tg =>
    let t := pyStrip tg
    if t.data.isEmpty then none else some ("- " ++ t)))

/-- The cloud-context block of `create_prompt_template` (infrastructure.py
lines 66-74): provider line, optional region line, optional tag block. -/
def cloudContext (cloud_provider : String) (region tags : Option String) : String :=
  let base := "Cloud Environment Context:\n- Provider: " ++ cloud_provider ++ "\n"
  let b1 :=
    if pyTruthy region then base ++ "- Region: " ++ region.getD "" ++ "\n" else base
  if pyTruthy tags then
    let tl := tagLines (tags.getD "")
    if tl.data.isEmpty then b1 else b1 ++ "- Resource Tags:\n" ++ tl ++ "\n"
  else b1

/-- Everything `create_prompt_template` emits before the optional version
clause: the framing f-string of infrastructure.py lines 77-101 followed by
the first fixed closing sentence of line 109. -/
def promptCommon (infra_type description cloud_provider : String)
    (region tags : Option String) : String :=
  "\n" ++ cloudContext cloud_provider region tags
    ++ "\n\nYou are a specialized Infrastructure as Code expert focusing on "
    ++ infra_type
    ++ ". Your task is to generate secure and production-ready code following these guidelines:\n\n1. Analyze Requirements:\n- Infrastructure Description: "
    ++ description
    ++ "\n- Consider scalability, high availability, and disaster recovery requirements\n- Identify potential security implications and compliance needs\n\n2. Code Generation Guidelines:\n- Follow security best practices and compliance standards\n- Include comprehensive comments explaining each resource and its purpose\n- Document security considerations and potential risks\n- Provide parameter descriptions and valid value ranges\n- Implement proper resource naming conventions and tagging\n- Add error handling and input validation where applicable\n- **IMPORTANT: Include standard version constraints for the IaC tool and any providers used (e.g., `required_version` and `required_providers` block in Terraform).**\n\n3. Resource Configuration:\n- List all relevant configuration options for each resource\n- Highlight required vs optional parameters\n- Include recommended values and usage examples\n- Document dependencies between resources\n"
    ++ "\nProvide the infrastructure code with detailed comments and proper formatting."

/-- The version-constraint clause of `create_prompt_template`
(infrastructure.py line 106). -/
def versionClause (target_versions : String) : String :=
  "\n**Target Version Constraints:**\nPlease ensure the generated code is compatible with and explicitly specifies the following versions if applicable:\n"
    ++ target_versions ++ "\n"

/-- The second fixed closing sentence of `create_prompt_template`
(infrastructure.py line 109). -/
def promptClosing : String :=
  "\nInclude a brief summary of security considerations and available configuration options."

/-- `create_prompt_template` (infrastructure.py lines 61-111): a pure
function of its arguments; the version clause is inserted between the two
fixed closing sentences only when `target_versions` is truthy. -/
def create_prompt_template (infra_type description cloud_provider : String)
    (region tags target_versions : Option String) : String :=
  let version_instructions :=
    if pyTruthy target_versions then versionClause (target_versions.getD "") else ""
  promptCommon infra_type description cloud_provider region tags
    ++ version_instructions ++ promptClosing

/- ## Generation -/

/-- One Generation Result, the JSON object built by `generate_infrastructure`
(generator.py lines 62-69). -/
structure GenResult where
  description : String
  iacType : String
  cloudProvider : String
  llmProvider : String
  model : Option String
  code : String
deriving DecidableEq, Repr

/-- The external behaviour of `generate_with_provider` (provider construction
plus the backend call): arguments are provider name, prompt, model and API
key; the result is the raw completion text or the message of the raised
exception. -/
abbrev DispatchFn := String → String → Option String → Option String → Except String String

/-- The resolved settings of one generation call. -/
structure ResolvedGen where
  provider : String
  model : Option String
  cloud : String
  apiKey : Option String
deriving DecidableEq, Repr

/-- The parameter resolution of `generate_infrastructure` (generator.py
lines 16-33): explicit truthy argument over configuration default for
provider and model (with the deepseek model fallback), `"AWS"` as the cloud
default, and for the key an explicit non-`None` argument over the
configuration value. -/
def resolve_generation_settings (cfg : Config)
    (llm_provider model cloud_provider api_key : Option String) : ResolvedGen :=
  let d := cfg.defaults
  let final_llm_provider := (pyOr llm_provider (some d.provider)).getD "deepseek"
  let m0 := pyOr model (some d.model)
  let final_model : Option String :=
    if final_llm_provider = "deepseek" && !pyTruthy m0 then some "deepseek-chat" else m0
  let final_cloud := (pyOr cloud_provider (some "AWS")).getD "AWS"
  let final_api_key : Option String :=
    match api_key with
    | some a => some a
    | none => d.apiKey
  ⟨final_llm_provider, final_model, final_cloud, final_api_key⟩

/-- The providers for which `generate_infrastructure` requires an API key
(generator.py line 37). -/
def providers_requiring_keys : List String :=
  ["openai", "anthropic", "deepseek", "openrouter"]

/-- `generate_infrastructure` (generator.py lines 9-73): read the
configuration, resolve the settings, fail early when a key-requiring
provider has no key, build the prompt, dispatch to the provider, and wrap
the stripped completion into the result object; any dispatch exception is
re-raised as a configuration error naming the provider.  The numeric
sampling parameters (`temperature`, `max_tokens`) are forwarded to the
backend unchanged and do not influence control flow, so they are elided. -/
def generate_infrastructure (w : World) (description iac_type : String)
    (cloud_provider llm_provider model api_key region tags target_versions : Option String)
    (dispatch : DispatchFn) : Except String GenResult :=
  let cfg := read_config w
  let r := resolve_generation_settings cfg llm_provider model cloud_provider api_key
  if providers_requiring_keys.contains r.provider && !pyTruthy r.apiKey then
    .error ("API key for provider " ++ sqc ++ r.provider ++ sqc
      ++ " is required but not found in arguments, config, or environment variables.")
  else
    let prompt := create_prompt_template iac_type description r.cloud region tags target_versions
    match dispatch r.provider prompt r.model r.apiKey with
    | .ok code => .ok ⟨description, iac_type, r.cloud, r.provider, r.model, pyStrip code⟩
    | .error e => .error ("Generation failed using " ++ r.provider ++ ": " ++ e)

/- ## CLI generation session (generate → modify slice) -/

/-- The LLM provider the `generate` command uses (cli.py line 80). -/
def cliLlmProvider (w : World) : String := (read_config w).defaults.provider

/-- The model the `generate` command uses (cli.py lines 81-85). -/
def cliModel (w : World) : String :=
  let m := (read_config w).defaults.model
  if cliLlmProvider w = "deepseek" && !pyTruthy (some m) then "deepseek-chat" else m

/-- The API key the `generate` command passes (cli.py line 149): taken from
the provider-specific environment variable. -/
def cliApiKey (w : World) : Option String :=
  if pyTruthy (some (cliLlmProvider w)) then
    envGet w (upperStr (cliLlmProvider w) ++ "_API_KEY")
  else none

/-- The feedback prompt of the modify branch (cli.py lines 226-238). -/
def feedbackBlock (infra_type description cloud : String)
    (generated_code feedback : String) : String :=
  "\n" ++ create_prompt_template infra_type description cloud none none none
    ++ "\n\nPreviously generated code:\n```\n" ++ generated_code
    ++ "\n```\n\nUser feedback for modifications:\n" ++ feedback
    ++ "\n\nPlease provide an updated version of the code that addresses this feedback.\n"

/-- The initial generation call of the `generate` command (cli.py lines
154-165). -/
def cliInitialCall (w : World) (description infra_type cloud : String)
    (d : DispatchFn) : Except String GenResult :=
  generate_infrastructure w description infra_type (some cloud)
    (some (cliLlmProvider w)) (some (cliModel w)) (cliApiKey w) none none none d

/-- The regeneration call of the modify branch (cli.py lines 243-254),
issued with the feedback prompt as the description and otherwise the same
parameters. -/
def cliModifyCall (w : World) (description infra_type cloud : String)
    (generated_code feedback : String) (d : DispatchFn) : Except String GenResult :=
  generate_infrastructure w (feedbackBlock infra_type description cloud generated_code feedback)
    infra_type (some cloud) (some (cliLlmProvider w)) (some (cliModel w)) (cliApiKey w)
    none none none d

/-- The observable session state of one `generate` command run that chose
the modify option: the retained initial code, the updated code if the
second generation succeeded, and the error message printed by the
command-level handler (cli.py lines 277-278) if any call raised. -/
structure CliOutcome where
  generatedCode : Option String
  updatedCode : Option String
  errorMsg : Option String
deriving DecidableEq, Repr

/-- The `generate` command with the modify option (cli.py lines 75-278,
choice 2): the first successful result is bound to `generated_code`, the
modify regeneration writes only `updated_code`, and an exception in either
call reaches the command-level handler, leaving `generated_code` as it
was. -/
def cli_generate_modify (w : World) (description infra_type cloud feedback : String)
    (d1 d2 : DispatchFn) : CliOutcome :=
  match cliInitialCall w description infra_type cloud d1 with
  | .error e => ⟨none, none, some ("Error generating infrastructure: " ++ e)⟩
  | .ok r1 =>
    match cliModifyCall w description infra_type cloud r1.code feedback d2 with
    | .error e => ⟨some r1.code, none, some ("Error generating infrastructure: " ++ e)⟩
    | .ok r2 => ⟨some r1.code, some r2.code, none⟩

/- ## Scenario fixtures -/

/-- A world with a stored configuration whose secret is the Secret Codec
ciphertext of `"A"` under the current key, used by the C2/C3 failing
input. -/
def storedSecretWorld : World :=
  ⟨.blob 0 ⟨some ⟨some "openai", some "m0", some (wrap 0 "A")⟩, []⟩, .hasKey 0, []⟩

/-- The configuration file of the precedence scenario: a stored deepseek
record whose secret is the Secret Codec ciphertext of `a`. -/
def c1File (a : String) : ConfigFile :=
  .blob 0 ⟨some ⟨some "deepseek", some "deepseek-chat", some (wrap 0 a)⟩, []⟩

/-- The secret of the Resolved Settings of one generation call in the
precedence scenario: stored secret `a`, environment `env`, explicit caller
argument `arg`. -/
def resolvedSecret (a : String) (env : List (String × String))
    (arg : Option String) : Option String :=
  (resolve_generation_settings (read_config ⟨c1File a, .hasKey 0, env⟩)
    none none none arg).apiKey

/-- The world of the C9 witness: no stored file, a provider key in the
environment. -/
def c9W : World := ⟨.missing, .hasKey 0, [("DEEPSEEK_API_KEY", "K")]⟩

/-- First dispatch of the C9 witness: the backend returns `"R1"`. -/
def c9d1 : DispatchFn := fun _ _ _ _ => .ok "R1"

/-- Second dispatch of the C9 witness: the backend raises. -/
def c9d2 : DispatchFn := fun _ _ _ _ => .error "boom"

/-- The generation result the initial call of the C9 witness produces. -/
def c9R1 : GenResult :=
  ⟨"make a bucket", "Terraform", "AWS", "deepseek", some "deepseek-chat", "R1"⟩

/-- The error the modify call of the C9 witness raises. -/
def c9Err : String := "Generation failed using " ++ "deepseek" ++ ": " ++ "boom"

/- ## Helper lemmas -/

/-- Decrypting a freshly encrypted secret under the same key returns it. -/
theorem unwrap_wrap (k : Nat) (s : String) : unwrap k (wrap k s) = some s := by
  simp [unwrap, wrap, List.take_left, List.drop_left]

/-- A wrapped secret is never the empty string (its tag ends with a colon). -/
theorem wrap_data_ne_nil (k : Nat) (s : String) : (wrap k s).data ≠ [] := by
  simp [wrap, wrapTag]

/-- `pyTruthy` of an absent value. -/
theorem pyTruthy_none : pyTruthy none = false := rfl

/-- `pyTruthy` of a non-empty string. -/
theorem pyTruthy_some_true (s : String) (h : s ≠ "") : pyTruthy (some s) = true := by
  cases s with
  | mk l =>
    cases l with
    | nil => exact absurd rfl h
    | cons x xs => rfl

/-- `s ++ "" = s` for strings. -/
theorem string_append_empty (s : String) : s ++ "" = s := by
  cases s with
  | mk l => exact congrArg String.mk (List.append_nil l)

/- ## Claim theorems: configuration store -/

/-- Claim C2: the claim states that the persisted `api_key` is always Secret
Codec ciphertext, for every write path including an `update_defaults` call
that passes no `api_key`.  The code violates this: `update_defaults` merges
the in-memory (already decrypted) defaults back and writes the plaintext
`"A"` into the file; the written field is not the codec ciphertext of `"A"`,
and decrypting it fails. -/
theorem c2_plaintext_key_persisted :
    update_defaults storedSecretWorld ⟨none, some "gpt-4", none⟩ (fun _ => .ok [])
        = .ok (.blob 0 ⟨some ⟨some "openai", some "gpt-4", some "A"⟩, []⟩)
      ∧ wrap 0 "A" ≠ "A"
      ∧ unwrap 0 "A" = none :=
  ⟨rfl, by decide, rfl⟩

/-- Claim C3: the claim states that `update_defaults` with only `model` set
leaves the persisted provider and secret recoverable unmodified by a
subsequent read.  The provider survives, but the secret does not: the
plaintext written back by the merge fails to decrypt on the next read, which
degrades it to `none`, while the original world still read it as `"A"`. -/
theorem c3_secret_destroyed_by_model_update :
    (update_defaults storedSecretWorld ⟨none, some "gpt-4", none⟩ (fun _ => .ok [])).map
        (fun f => (read_config ⟨f, .hasKey 0, []⟩).defaults)
        = .ok ⟨"openai", "gpt-4", none⟩
      ∧ (read_config storedSecretWorld).defaults.apiKey = some "A" :=
  ⟨rfl, rfl⟩

/-- Claim C4: Secret Codec round-trip — for every key obtainable from
`get_fernet` and every non-empty string `s`, unwrapping the wrap of `s`
yields exactly `s`. -/
theorem c4_secret_codec_roundtrip (kr : KeyringState) (k : Nat) (s : String)
    (hk : getFernetKey kr = some k) (hs : s ≠ "") :
    unwrap k (wrap k s) = some s :=
  unwrap_wrap k s

/-- Witness for C4 at the key stored in the keyring and `s = "topsecret"`. -/
theorem c4_secret_codec_roundtrip_witness :
    getFernetKey (.hasKey 5) = some 5 ∧ ("topsecret" : String) ≠ ""
      ∧ unwrap 5 (wrap 5 "topsecret") = some "topsecret" :=
  ⟨rfl, by decide, c4_secret_codec_roundtrip (.hasKey 5) 5 "topsecret" rfl (by decide)⟩

/-- Claim C5 counterexample: the claim says `read_config` raises for a file
that exists when the encryption key cannot be obtained at all.  It does not:
the keyring exception is raised inside the `try` block (`readStoredTry`
yields the error) but the surrounding `except Exception` swallows it, and
`read_config` returns the merged base defaults. -/
theorem c5_counterexample :
    readStoredTry ⟨.blob 0 ⟨some ⟨some "openai", some "m0", some (wrap 0 "A")⟩, []⟩,
        .unreachable, []⟩
        = .error "keyring unreachable"
      ∧ read_config ⟨.blob 0 ⟨some ⟨some "openai", some "m0", some (wrap 0 "A")⟩, []⟩,
          .unreachable, []⟩
        = ⟨⟨"deepseek", "deepseek-chat", none⟩, []⟩ :=
  ⟨rfl, by decide⟩

/-- Claim C5 as amended: `read_config` never raises at all.  An unreadable
file behaves exactly like a missing one; a file whose encryption key cannot
be obtained also degrades to the missing-file behaviour; and a stored secret
that fails to decrypt behaves exactly as if no secret were stored, in every
environment. -/
theorem c5_amended (kr : KeyringState) (env : List (String × String)) (k : Nat)
    (pv pm : Option String) (c : String) (ps : List (String × String))
    (payload : StoredConfig) (hc : c ≠ "") (hu : unwrap k c = none) :
    read_config ⟨.unreadable, kr, env⟩ = read_config ⟨.missing, kr, env⟩
      ∧ read_config ⟨.blob k payload, .unreachable, env⟩
        = read_config ⟨.missing, .unreachable, env⟩
      ∧ read_config ⟨.blob k ⟨some ⟨pv, pm, some c⟩, ps⟩, .hasKey k, env⟩
        = read_config ⟨.blob k ⟨some ⟨pv, pm, none⟩, ps⟩, .hasKey k, env⟩ := by
  refine ⟨rfl, rfl, ?_⟩
  have hdata : c.data ≠ [] := by
    intro h
    apply hc
    cases c with
    | mk l => exact congrArg String.mk h
  have hT : pyTruthy (some c) = true := by
    cases hD : c.data with
    | nil => exact absurd hD hdata
    | cons x xs => simp [pyTruthy, hD]
  have h3 : readStoredTry ⟨.blob k ⟨some ⟨pv, pm, some c⟩, ps⟩, .hasKey k, env⟩
      = readStoredTry ⟨.blob k ⟨some ⟨pv, pm, none⟩, ps⟩, .hasKey k, env⟩ := by
    simp [readStoredTry, getFernetKey, hT, hu, baseDefaults]
  simp only [read_config, h3]

/-- Witness for C5 at a concrete undecryptable stored secret `"A"`. -/
theorem c5_amended_witness :
    ("A" : String) ≠ "" ∧ unwrap 3 "A" = none
      ∧ read_config ⟨.blob 3 ⟨some ⟨some "openai", some "m0", some "A"⟩, []⟩, .hasKey 3, []⟩
        = read_config ⟨.blob 3 ⟨some ⟨some "openai", some "m0", none⟩, []⟩, .hasKey 3, []⟩ :=
  ⟨by decide, rfl,
    (c5_amended (.hasKey 3) [] 3 (some "openai") (some "m0") "A" [] ⟨none, []⟩
      (by decide) rfl).2.2⟩

/- ## Claim theorems: provider registry and model listing -/

/-- Claim C6: an unregistered provider identifier makes both `get_provider`
and `update_defaults(provider=...)` fail with a configuration error whose
message carries the offending identifier and enumerates exactly the
registered identifiers (the joined list is precisely the registry's key
list). -/
theorem c6_invalid_provider_error (p : String) (construct : String → Except String Unit)
    (w : World) (am : String → Except String (List String))
    (hp : p ∉ available_providers) :
    get_provider p construct
        = .error ("Unsupported provider: " ++ p ++ ". Supported: "
            ++ joinComma available_providers)
      ∧ update_defaults w ⟨some p, none, none⟩ am
        = .error ("Invalid provider: " ++ sqc ++ p ++ sqc ++ ". Available: "
            ++ joinComma available_providers)
      ∧ joinComma available_providers
        = "deepseek, openai, anthropic, openrouter, bedrock, ollama" := by
  refine ⟨?_, ?_, by decide⟩
  · simp [get_provider, hp]
  · simp [update_defaults, hp]

/-- Witness for C6 at the identifier `"unknown-vendor"` of the end-to-end
scenario. -/
theorem c6_invalid_provider_error_witness :
    ("unknown-vendor" ∉ available_providers)
      ∧ get_provider "unknown-vendor" (fun _ => .ok ())
          = .error ("Unsupported provider: " ++ "unknown-vendor" ++ ". Supported: "
              ++ joinComma available_providers)
      ∧ update_defaults ⟨.missing, .hasKey 0, []⟩ ⟨some "unknown-vendor", none, none⟩
            (fun _ => .ok [])
          = .error ("Invalid provider: " ++ sqc ++ "unknown-vendor" ++ sqc ++ ". Available: "
              ++ joinComma available_providers) := by
  have h := c6_invalid_provider_error "unknown-vendor" (fun _ => .ok ())
      ⟨.missing, .hasKey 0, []⟩ (fun _ => .ok []) (by decide)
  exact ⟨by decide, h.1, h.2.1⟩

/-- Claim C7 counterexample: the claim says any listing failure yields an
empty sequence and never a non-empty fallback list; but for the bedrock
provider a listing failure returns the static non-empty model-name list,
which `get_available_models` passes through. -/
theorem c7_counterexample :
    get_available_models "bedrock" (fun _ => .ok ())
        (bedrock_list_models (.error "network timeout"))
      = .ok bedrockModelNames
    ∧ bedrockModelNames ≠ [] :=
  ⟨rfl, by decide⟩

/-- Claim C7 as amended: a failure inside `list_models` is never propagated
by `get_available_models`; for the deepseek, openai, openrouter and ollama
providers it yields the empty sequence, but for bedrock it yields the
static non-empty fallback list. -/
theorem c7_amended (e : String) (construct : String → Except String Unit)
    (hds : construct "deepseek" = .ok ()) (hbr : construct "bedrock" = .ok ()) :
    deepseek_list_models (.error e) = []
      ∧ openai_list_models (.error e) = []
      ∧ openrouter_list_models (.error e) = []
      ∧ ollama_list_models (.error e) = []
      ∧ bedrock_list_models (.error e) = bedrockModelNames
      ∧ bedrockModelNames ≠ []
      ∧ get_available_models "deepseek" construct (deepseek_list_models (.error e)) = .ok []
      ∧ get_available_models "bedrock" construct (bedrock_list_models (.error e))
          = .ok bedrockModelNames := by
  refine ⟨rfl, rfl, rfl, rfl, rfl, by decide, ?_, ?_⟩
  · simp [get_available_models, get_provider, available_providers, hds, deepseek_list_models]
  · simp [get_available_models, get_provider, available_providers, hbr, bedrock_list_models,
      bedrockModelNames]

/-- Witness for C7 at a concrete network failure and trivially succeeding
construction. -/
theorem c7_amended_witness :
    ((fun _ => .ok ()) : String → Except String Unit) "deepseek" = .ok ()
      ∧ get_available_models "bedrock" (fun _ => .ok ())
          (bedrock_list_models (.error "boom")) = .ok bedrockModelNames := by
  have h := c7_amended "boom" (fun _ => .ok ()) rfl rfl
  exact ⟨rfl, h.2.2.2.2.2.2.2⟩

/- ## Claim theorems: precedence, prompt builder, session, defaults -/

/-- Claim C1 counterexample: with both the provider-specific
`DEEPSEEK_API_KEY` and the generic `IACGENIUS_API_KEY` set and no explicit
argument, the resolved secret is the provider-specific value, not the
generic one the claim predicts. -/
theorem c1_counterexample :
    resolvedSecret "A" [("DEEPSEEK_API_KEY", "S"), ("IACGENIUS_API_KEY", "G")] none
        = some "S"
      ∧ resolvedSecret "A" [("DEEPSEEK_API_KEY", "S"), ("IACGENIUS_API_KEY", "G")] none
        ≠ some "G" :=
  ⟨rfl, by decide⟩

/-- Claim C1 as amended: the precedence is stored Credential Record <
generic environment variable < provider-specific environment variable <
explicit caller argument.  The `"A"`/`"B"`/`"C"` scenario of the claim holds
as stated; when both environment variables are set, the provider-specific
one wins. -/
theorem c1_amended (a b c g s : String) (hb : b ≠ "") (hs : s ≠ "") :
    resolvedSecret a [] none = some a
      ∧ resolvedSecret a [("IACGENIUS_API_KEY", b)] none = some b
      ∧ resolvedSecret a [("IACGENIUS_API_KEY", b)] (some c) = some c
      ∧ resolvedSecret a [("DEEPSEEK_API_KEY", s), ("IACGENIUS_API_KEY", g)] none
        = some s := by
  refine ⟨rfl, ?_, rfl, ?_⟩
  · cases b with
    | mk lb =>
      cases lb with
      | nil => exact absurd rfl hb
      | cons x xs => rfl
  · cases s with
    | mk ls =>
      cases ls with
      | nil => exact absurd rfl hs
      | cons x xs => rfl

/-- Witness for C1 at the scenario strings of the specification. -/
theorem c1_amended_witness :
    ("B" : String) ≠ "" ∧ ("S" : String) ≠ ""
      ∧ resolvedSecret "A" [] none = some "A"
      ∧ resolvedSecret "A" [("IACGENIUS_API_KEY", "B")] none = some "B"
      ∧ resolvedSecret "A" [("IACGENIUS_API_KEY", "B")] (some "C") = some "C"
      ∧ resolvedSecret "A" [("DEEPSEEK_API_KEY", "S"), ("IACGENIUS_API_KEY", "G")] none
        = some "S" := by
  have h := c1_amended "A" "B" "C" "G" "S" (by decide) (by decide)
  exact ⟨by decide, by decide, h.1, h.2.1, h.2.2.1, h.2.2.2⟩

/-- Claim C8: the Prompt Builder is a pure function (it is a function of its
arguments by construction, so two calls with identical arguments are
byte-identical), and a truthy `target_versions` inserts exactly the one
version-constraint clause between the two fixed closing sentences, leaving
everything else unchanged. -/
theorem c8_prompt_builder (it d cp : String) (region tags : Option String)
    (v : String) (hv : v ≠ "") :
    create_prompt_template it d cp region tags (some v)
        = promptCommon it d cp region tags ++ versionClause v ++ promptClosing
      ∧ create_prompt_template it d cp region tags none
        = promptCommon it d cp region tags ++ promptClosing := by
  constructor
  · simp [create_prompt_template, pyTruthy_some_true v hv]
  · simp [create_prompt_template, pyTruthy_none, string_append_empty]

/-- Witness for C8 at a concrete request with a version constraint. -/
theorem c8_prompt_builder_witness :
    ("1.5.0" : String) ≠ ""
      ∧ create_prompt_template "Terraform" "an S3 bucket" "AWS" none none (some "1.5.0")
        = promptCommon "Terraform" "an S3 bucket" "AWS" none none
            ++ versionClause "1.5.0" ++ promptClosing :=
  ⟨by decide,
    (c8_prompt_builder "Terraform" "an S3 bucket" "AWS" none none "1.5.0" (by decide)).1⟩

/-- Claim C9: session failure isolation — when the initial generation of the
CLI `generate` command succeeds with result `r1` and the provider dispatch of
the subsequent modify-with-feedback call fails, the session's retained
generated code is still `r1.code`, no updated code is produced, and the
error is reported. -/
theorem c9_modify_failure_isolation (w : World)
    (description infra_type cloud feedback : String)
    (d1 d2 : DispatchFn) (r1 : GenResult) (e : String)
    (h1 : cliInitialCall w description infra_type cloud d1 = .ok r1)
    (h2 : cliModifyCall w description infra_type cloud r1.code feedback d2 = .error e) :
    cli_generate_modify w description infra_type cloud feedback d1 d2
      = ⟨some r1.code, none, some ("Error generating infrastructure: " ++ e)⟩ := by
  simp [cli_generate_modify, h1, h2]

/-- Witness for C9 at a concrete session whose modify dispatch fails. -/
theorem c9_modify_failure_isolation_witness :
    cliInitialCall c9W "make a bucket" "Terraform" "AWS" c9d1 = .ok c9R1
      ∧ cliModifyCall c9W "make a bucket" "Terraform" "AWS" c9R1.code "add versioning" c9d2
        = .error c9Err
      ∧ cli_generate_modify c9W "make a bucket" "Terraform" "AWS" "add versioning" c9d1 c9d2
        = ⟨some c9R1.code, none, some ("Error generating infrastructure: " ++ c9Err)⟩ :=
  ⟨rfl, rfl,
    c9_modify_failure_isolation c9W "make a bucket" "Terraform" "AWS" "add versioning"
      c9d1 c9d2 c9R1 c9Err rfl rfl⟩

/-- Claim C10 counterexample: with no configuration file and an empty
environment, `read_config` does return the hard-coded deepseek defaults with
no secret, but `generate_infrastructure` run without explicit arguments does
not dispatch — it raises the missing-API-key configuration error before the
provider is ever called (the dispatch stub here would have succeeded). -/
theorem c10_counterexample :
    (read_config ⟨.missing, .hasKey 0, []⟩).defaults
        = ⟨"deepseek", "deepseek-chat", none⟩
      ∧ generate_infrastructure ⟨.missing, .hasKey 0, []⟩
          "Create an S3 bucket with versioning" "Terraform"
          none none none none none none none (fun _ _ _ _ => .ok "resource XYZ")
        = .error ("API key for provider " ++ sqc ++ "deepseek" ++ sqc
            ++ " is required but not found in arguments, config, or environment variables.") :=
  ⟨rfl, rfl⟩

/-- Claim C10 as amended: with no configuration file and no relevant
environment variables, `read_config` returns the hard-coded deepseek
defaults with no stored secret, and `generate_infrastructure` without
explicit provider/model arguments dispatches to the `"deepseek"` provider
with model `"deepseek-chat"` provided a non-empty API key is passed; without
any key it raises a configuration error before dispatch. -/
theorem c10_amended (d it key : String) (dispatch : DispatchFn) (hk : key ≠ "") :
    (read_config ⟨.missing, .hasKey 0, []⟩).defaults
        = ⟨"deepseek", "deepseek-chat", none⟩
      ∧ generate_infrastructure ⟨.missing, .hasKey 0, []⟩ d it
          none none none (some key) none none none dispatch
        = (match dispatch "deepseek" (create_prompt_template it d "AWS" none none none)
              (some "deepseek-chat") (some key) with
           | .ok code => .ok ⟨d, it, "AWS", "deepseek", some "deepseek-chat", pyStrip code⟩
           | .error e => .error ("Generation failed using " ++ "deepseek" ++ ": " ++ e)) := by
  refine ⟨rfl, ?_⟩
  cases key with
  | mk l =>
    cases l with
    | nil => exact absurd rfl hk
    | cons ch t => rfl

/-- Witness for C10 at a concrete key and echoing dispatch. -/
theorem c10_amended_witness :
    ("K" : String) ≠ ""
      ∧ generate_infrastructure ⟨.missing, .hasKey 0, []⟩ "make a bucket" "Terraform"
          none none none (some "K") none none none (fun _ _ _ _ => .ok " code ")
        = .ok ⟨"make a bucket", "Terraform", "AWS", "deepseek", some "deepseek-chat", "code"⟩ := by
  have h := (c10_amended "make a bucket" "Terraform" "K"
      (fun _ _ _ _ => .ok " code ") (by decide)).2
  exact ⟨by decide, h.trans rfl⟩
